import Mathlib

/-!
Verification of the trading_assistant repository against its specification.

Shallow embedding conventions:
  * Python `Decimal` values are modelled as exact rationals (`ℚ`); the code uses
    `Decimal` for money/quantities, which embeds exactly into `ℚ` for the
    arithmetic the claims exercise (add, sub, mul, exact div, abs, compare).
  * Python `float` metric values are likewise modelled as `ℚ`; the claims under
    scrutiny are about branch structure and exact values far from float
    rounding boundaries.
  * Timestamps (milliseconds) are `ℤ`.
  * Python dicts are modelled as insertion-ordered association lists.
  * Fallible code paths (exceptions such as `TypeError` from `int(...)` or list
    indexing) are modelled with `Option`, `none` meaning the Python code raises.
-/

namespace TradingAssistant

/-! ## Shared helpers -/

/-- Lookup in an insertion-ordered association list (Python `dict.__getitem__`
/ `dict.get` semantics; keys are unique in the states the code builds, and the
first hit is returned). -/
def alookup {α : Type} : List (String × α) → String → Option α
  | [], _ => none
  | kv :: rest, key => if kv.1 = key then some kv.2 else alookup rest key

/-- Python `int(x)` on a float/Decimal value: truncation toward zero
(`Int.tdiv` is T-division, matching Python `int()`). -/
def pyTrunc (q : ℚ) : ℤ := Int.tdiv q.num (q.den : ℤ)

/-- Python `str.lower()` for the ASCII symbol names the repositories key by.
(Defined over the character list so it computes by reduction.) -/
def pyLower (s : String) : String := String.mk (s.data.map Char.toLower)

/-! ## Evaluator (src/trading/agents/evaluator_agent.py)

`EvaluatorAgent.evaluate` receives a map of computed metrics (already
extracted from the backtest results and filtered by `request.metrics`) and a
map of KPI thresholds (`request.kpis` or the defaults).  We embed the
compliance computation, the passed flag and `_generate_recommendation`. -/

/-- One compliance entry per KPI threshold, in KPI-map order
(evaluator_agent.py lines 87-101).  A KPI whose metric is missing from the
metrics map is recorded as non-compliant (`metric_value is None` branch). -/
def kpiCompliance (metrics kpis : List (String × ℚ)) : List (String × Bool) :=
  kpis.map (fun kv =>
    (kv.1,
      match alookup metrics kv.1 with
      | none => false
      | some m =>
          if kv.1 = "max_drawdown" then decide (|m| ≤ |kv.2|) else decide (kv.2 ≤ m)))

/-- `evaluation_passed = all(kpi_compliance.values()) if kpi_compliance else False`
(evaluator_agent.py line 104). -/
def evaluationPassed (compliance : List (String × Bool)) : Bool :=
  if compliance.isEmpty then false else compliance.all (fun kv => kv.2)

/-- The `close_to_threshold` scan of `_generate_recommendation`
(evaluator_agent.py lines 165-180): the Python loop `break`s at the first
failing KPI within 20% of its threshold, so the result is an existence check.
`metrics.get(kpi_name, 0.0)` is the `.getD 0` default; `kpis[kpi_name]` cannot
miss because compliance keys come from `kpis` (we still use `.getD 0` to stay
total). -/
def failingCloseToThreshold
    (compliance : List (String × Bool)) (metrics kpis : List (String × ℚ)) : Bool :=
  compliance.any (fun kv =>
    !kv.2 &&
      (let thr := (alookup kpis kv.1).getD 0
       let m := (alookup metrics kv.1).getD 0
       if kv.1 = "max_drawdown" then decide (|m| ≤ |thr| * (12 / 10))
       else decide (thr * (8 / 10) ≤ m)))

/-- The `critical_failures` scan of `_generate_recommendation`
(evaluator_agent.py lines 183-203), again an existence check because of the
`break`. -/
def criticalFailures
    (compliance : List (String × Bool)) (metrics kpis : List (String × ℚ)) : Bool :=
  compliance.any (fun kv =>
    !kv.2 &&
      (let thr := (alookup kpis kv.1).getD 0
       let m := (alookup metrics kv.1).getD 0
       if kv.1 = "max_drawdown" then decide (|thr| * 2 < |m|)
       else if kv.1 = "profit_factor" then decide (m < 1)
       else if kv.1 = "sharpe_ratio" then decide (m < 0)
       else false))

/-- `EvaluatorAgent._generate_recommendation` (evaluator_agent.py lines
143-212). -/
def generateRecommendation
    (passed : Bool) (compliance : List (String × Bool))
    (metrics kpis : List (String × ℚ)) : String :=
  if passed then "promote"
  else
    let close := failingCloseToThreshold compliance metrics kpis
    let critical := criticalFailures compliance metrics kpis
    if critical then "reject"
    else if close then "optimize"
    else "reject"

/-- Outcome of one evaluation: the fields of `EvaluationResponse` the claims
talk about. -/
structure EvaluationOutcome where
  passed : Bool
  compliance : List (String × Bool)
  recommendation : String
deriving DecidableEq

/-- Core of `EvaluatorAgent.evaluate` (evaluator_agent.py lines 86-137) on the
already-extracted metrics map and the KPI map in force.  The function is total:
a KPI name absent from the metrics map yields compliance `false` rather than
an exception. -/
def evaluate (metrics kpis : List (String × ℚ)) : EvaluationOutcome :=
  let compliance := kpiCompliance metrics kpis
  let passed := evaluationPassed compliance
  { passed := passed
    compliance := compliance
    recommendation := generateRecommendation passed compliance metrics kpis }

/-! ## Optimizer (src/trading/agents/optimizer_agent.py)

`_validate_parameters` works on JSON-ish values suggested by the LLM; we model
Python's `Any` with the `PyVal` inductive.  `_fallback_optimize` is the
deterministic fallback used when the LLM is unavailable or errors. -/

/-- Dynamic JSON-ish value as handled by `_validate_parameters`. -/
inductive PyVal where
  | num (q : ℚ)
  | str (s : String)
  | list (xs : List PyVal)
  | nil

/-- Python `int(v)` for a suggested RSI entry.  The LLM produces JSON numbers;
a non-numeric entry makes `int()` raise, which we model as `none`. -/
def pyInt : PyVal → Option ℤ
  | .num q => some (pyTrunc q)
  | _ => none

/-- The dedicated `rsi_limits` validation branch of
`OptimizerAgent._validate_parameters` (optimizer_agent.py lines 292-302),
applied to a non-None suggested value.  Outer `none` models an `int()`
exception; `some none` models reject-with-warning; `some (some ints)` is the
accepted, int-converted triple that the validator stores. -/
def rsiBranch (v : PyVal) : Option (Option (List ℤ)) :=
  match v with
  | .list xs =>
      if xs.length = 3 then
        match xs.mapM pyInt with
        | none => none
        | some ints =>
            if ints.all (fun i => decide (0 ≤ i) && decide (i ≤ 100)) &&
               (match ints with
                | [a, b, c] => decide (a < b) && decide (b < c)
                | _ => false) then
              some (some ints)
            else some none
      else some none
  | _ => some none

/-- Timeframe vocabulary hard-coded in `_validate_parameters`
(optimizer_agent.py line 309). -/
def llmValidTimeframes : List String :=
  ["1m", "3m", "5m", "15m", "30m", "1h", "2h", "4h", "6h", "8h", "12h", "1d"]

/-- The `timeframes` validation branch of `_validate_parameters`
(optimizer_agent.py lines 305-315): value must be a list of strings, all drawn
from the vocabulary; otherwise it is dropped with a warning (no exception). -/
def tfBranch (v : PyVal) : Option (List String) :=
  match v with
  | .list xs =>
      match xs.mapM (fun x => match x with | .str s => some s | _ => none) with
      | some tfs => if tfs.all (fun tf => llmValidTimeframes.contains tf) then some tfs else none
      | none => none
  | _ => none

/-- Python `v in valid_values` for one element of a suggested list: only a
numeric element can equal a float from the parameter space. -/
def pyMem (v : PyVal) (vals : List ℚ) : Bool :=
  match v with
  | .num q => vals.contains q
  | _ => false

/-- One step of the parameter-space re-validation loop of
`_validate_parameters` (optimizer_agent.py lines 318-325): a key present in
the parameter space and in the suggestion but not yet validated is admitted
whenever its value (scalar, or every element of a list) is a member of the
space's value list — with no shape or ordering check. -/
def spaceStep (suggested : List (String × PyVal))
    (validated : List (String × PyVal)) (entry : String × List ℚ) :
    List (String × PyVal) :=
  if (alookup validated entry.1).isSome then validated
  else
    match alookup suggested entry.1 with
    | none => validated
    | some v =>
        match v with
        | .num q => if entry.2.contains q then validated ++ [(entry.1, v)] else validated
        | .list xs => if xs.all (fun x => pyMem x entry.2) then validated ++ [(entry.1, v)] else validated
        | _ => validated

/-- `OptimizerAgent._validate_parameters` (optimizer_agent.py lines 277-330):
the dedicated `rsi_limits` branch, the `timeframes` branch, then the generic
parameter-space loop.  `none` models an exception escaping the validator. -/
def validateParameters (suggested : List (String × PyVal))
    (space : List (String × List ℚ)) : Option (List (String × PyVal)) :=
  let afterRsi : Option (List (String × PyVal)) :=
    match alookup suggested "rsi_limits" with
    | none => some []
    | some PyVal.nil => some []
    | some v =>
        match rsiBranch v with
        | none => none
        | some none => some []
        | some (some ints) =>
            some [("rsi_limits", PyVal.list (ints.map (fun i => PyVal.num (i : ℚ))))]
  match afterRsi with
  | none => none
  | some v1 =>
      let v2 :=
        match alookup suggested "timeframes" with
        | none => v1
        | some PyVal.nil => v1
        | some v =>
            match tfBranch v with
            | some _ => v1 ++ [("timeframes", v)]
            | none => v1
      some (space.foldl (spaceStep suggested) v2)

/-- The slice of `OptimizationRequest` the optimizer reads: the parameter
space and the `rsi_limits` of the optional base backtest config.
`backtestConfigRsiLimits = none` means `request.backtest_config is None`;
`some none` means the config is present but its `rsi_limits` is `None`. -/
structure OptimizationRequestData where
  runId : String
  strategyName : String
  parameterSpace : List (String × List ℚ)
  backtestConfigRsiLimits : Option (Option (List ℤ))
deriving DecidableEq

/-- The fields of `OptimizationResult` the claims talk about. -/
structure OptimizationResultData where
  runId : String
  strategyName : String
  optimizedParameters : List (String × PyVal)
  confidence : ℚ
  metadata : List (String × String)

/-- The metrics of a previous backtest result that `_fallback_optimize`
consults. -/
structure PrevResultMetrics where
  profitFactor : ℚ
  maxDrawdown : ℚ
deriving DecidableEq

/-- `current = request.backtest_config.rsi_limits if request.backtest_config
else [15, 50, 85]` (optimizer_agent.py lines 357 and 366).  A present config
whose `rsi_limits` is `None` leaves `current = None`, so the subsequent
indexing raises — modelled as `none`. -/
def fallbackRsiCurrent (req : OptimizationRequestData) : Option (List ℤ) :=
  match req.backtestConfigRsiLimits with
  | none => some [15, 50, 85]
  | some (some l) => some l
  | some none => none

/-- `OptimizerAgent._fallback_optimize` (optimizer_agent.py lines 332-386).
When the most recent `profit_factor < 1.5`, the lower RSI bound is lowered by
5 (floor 5) and the upper bound is raised by 5 (ceiling 95); otherwise, when
the most recent `max_drawdown > 10`, the lower bound is raised by 5 (capped
at 30) and the upper bound is lowered by 5 (floored at 70).  Confidence is
0.4 and metadata records the deterministic fallback.  `none` models the
exception raised when `current` is `None` or shorter than 3. -/
def fallbackOptimize (req : OptimizationRequestData)
    (previousResults : List PrevResultMetrics) : Option OptimizationResultData :=
  let params? : Option (List (String × PyVal)) :=
    match previousResults.getLast? with
    | none => some []
    | some latest =>
        if latest.profitFactor < 3 / 2 then
          if (alookup req.parameterSpace "rsi_limits").isSome then
            match fallbackRsiCurrent req with
            | none => none
            | some cur =>
                match cur.get? 0, cur.get? 1, cur.get? 2 with
                | some a, some b, some c =>
                    some [("rsi_limits",
                      PyVal.list [PyVal.num ((max 5 (a - 5) : ℤ) : ℚ),
                                  PyVal.num ((b : ℤ) : ℚ),
                                  PyVal.num ((min 95 (c + 5) : ℤ) : ℚ)])]
                | _, _, _ => none
          else some []
        else if latest.maxDrawdown > 10 then
          if (alookup req.parameterSpace "rsi_limits").isSome then
            match fallbackRsiCurrent req with
            | none => none
            | some cur =>
                match cur.get? 0, cur.get? 1, cur.get? 2 with
                | some a, some b, some c =>
                    some [("rsi_limits",
                      PyVal.list [PyVal.num ((min 30 (a + 5) : ℤ) : ℚ),
                                  PyVal.num ((b : ℤ) : ℚ),
                                  PyVal.num ((max 70 (c - 5) : ℤ) : ℚ)])]
                | _, _, _ => none
          else some []
        else some []
  match params? with
  | none => none
  | some ps =>
      some { runId := req.runId
             strategyName := req.strategyName
             optimizedParameters := ps
             confidence := 2 / 5
             metadata := [("method", "fallback_deterministic")] }

/-- Core of `OptimizerAgent._parse_llm_response` (optimizer_agent.py lines
226-275) once the LLM content has been parsed into a parameter map: validate
the suggestion against the parameter space, clamp confidence to [0, 1], and
record LLM metadata (which carries no `method` key). -/
def parseLlmResult (req : OptimizationRequestData)
    (suggestedParams : List (String × PyVal)) (confidence : ℚ)
    (model : String) : Option OptimizationResultData :=
  match validateParameters suggestedParams req.parameterSpace with
  | none => none
  | some validated =>
      some { runId := req.runId
             strategyName := req.strategyName
             optimizedParameters := validated
             confidence := max 0 (min 1 confidence)
             metadata := [("model", model)] }

/-! ## Exchange simulator (src/trading/infrastructure/exchange/exchange.py)

State is the union of the account repository (balance, leverages, positions),
the orders repository (per-symbol lists, in insertion order), the trades
repository (flattened into one append-ordered list; the Python repository
groups trades by symbol and side but preserves this order within each group),
the fees/notional configuration and the internal base-timeframe candle
listener registrations.  Events are the order/trade/position dispatches. -/

inductive PositionSide where
  | long
  | short
deriving DecidableEq

inductive OrderSide where
  | buy
  | sell
deriving DecidableEq

inductive OrderType where
  | limit
  | market
deriving DecidableEq

inductive OrderStatus where
  | new
  | filled
  | canceled
deriving DecidableEq

/-- OHLC candle as consumed by the exchange (domain/entities.py `Candle`). -/
structure CandleData where
  symbol : String
  timestamp : ℤ
  openPrice : ℚ
  highPrice : ℚ
  lowPrice : ℚ
  closePrice : ℚ
deriving DecidableEq

/-- domain/entities.py `Trade`. -/
structure TradeData where
  orderId : String
  timestamp : ℤ
  symbol : String
  positionSide : PositionSide
  side : OrderSide
  price : ℚ
  quantity : ℚ
  commission : ℚ
  realizedPnl : ℚ
  closesPositionCompletely : Bool
deriving DecidableEq

/-- domain/entities.py `Order`. -/
structure OrderData where
  orderId : String
  symbol : String
  positionSide : PositionSide
  side : OrderSide
  type : OrderType
  price : ℚ
  quantity : ℚ
  status : OrderStatus
deriving DecidableEq

/-- domain/entities.py `Position`; `commission` and `trades` start empty in
`__init__`. -/
structure PositionData where
  symbol : String
  side : PositionSide
  amount : ℚ
  entryPrice : ℚ
  breakEven : ℚ
  commission : ℚ
  trades : List TradeData
deriving DecidableEq

/-- A freshly constructed `Position(symbol, side, 0, 0, 0)`. -/
def flatPosition (symbol : String) (side : PositionSide) : PositionData :=
  { symbol := symbol, side := side, amount := 0, entryPrice := 0, breakEven := 0
    commission := 0, trades := [] }

/-- Insertion sort by timestamp: models the stable Python `list.sort(key=timestamp)`
in `Position.add_trade` (domain/entities.py line 131). -/
def insertByTimestamp (t : TradeData) : List TradeData → List TradeData
  | [] => [t]
  | x :: xs => if t.timestamp < x.timestamp then t :: x :: xs else x :: insertByTimestamp t xs

/-- Stable sort of a trade list by timestamp. -/
def sortTradesByTimestamp : List TradeData → List TradeData
  | [] => []
  | x :: xs => insertByTimestamp x (sortTradesByTimestamp xs)

/-- `Position.add_trade` (domain/entities.py lines 122-131): append, adjust
accumulated commission by side, re-sort by timestamp. -/
def positionAddTrade (p : PositionData) (t : TradeData) : PositionData :=
  let c := |t.commission|
  let newCommission :=
    if (p.side = PositionSide.long ∧ t.side = OrderSide.buy) ∨
       (p.side = PositionSide.short ∧ t.side = OrderSide.sell) then
      p.commission + c
    else p.commission - c
  { p with trades := sortTradesByTimestamp (p.trades ++ [t]), commission := newCommission }

/-- Dispatched exchange events, in dispatch order. -/
inductive ExchangeEvent where
  | orderEvent (o : OrderData)
  | tradeEvent (t : TradeData)
  | positionEvent (p : PositionData)
deriving DecidableEq

/-- Whole exchange-simulator state. -/
structure ExchangeState where
  balance : ℚ
  leverages : List (String × ℚ)
  positions : List ((String × PositionSide) × PositionData)
  orders : List (String × List OrderData)
  trades : List TradeData
  makerFee : ℚ
  takerFee : ℚ
  maxNotional : ℚ
  internalListeners : List String
deriving DecidableEq

/-- Position lookup keyed by lowered symbol and side. -/
def posLookup : List ((String × PositionSide) × PositionData) →
    String → PositionSide → Option PositionData
  | [], _, _ => none
  | kv :: rest, sym, side =>
      if kv.1.1 = sym ∧ kv.1.2 = side then some kv.2 else posLookup rest sym side

/-- `AccountRepository.get_position` (repositories/account_repository.py):
lowercases the symbol and answers a flat default when no position is stored.
The Python version also inserts the default into the dict on a miss; reading
back the inserted default is observationally the same as this pure default. -/
def getPosition (st : ExchangeState) (symbol : String) (side : PositionSide) : PositionData :=
  match posLookup st.positions (pyLower symbol) side with
  | some p => p
  | none => flatPosition (pyLower symbol) side

/-- `AccountRepository.set_position`: upsert under the lowered symbol of the
stored position. -/
def setPosition (st : ExchangeState) (p : PositionData) : ExchangeState :=
  let key := (pyLower p.symbol, p.side)
  let rec go : List ((String × PositionSide) × PositionData) →
      List ((String × PositionSide) × PositionData)
    | [] => [(key, p)]
    | kv :: rest => if kv.1 = key then (key, p) :: rest else kv :: go rest
  { st with positions := go st.positions }

/-- `OrdersRepository.get_symbol_orders`: the per-symbol list (empty default),
keyed by lowered symbol. -/
def symbolOrders (st : ExchangeState) (symbol : String) : List OrderData :=
  (alookup st.orders (pyLower symbol)).getD []

/-- `OrdersRepository.get_order`: scan symbols in insertion order, then each
symbol's orders in insertion order, returning the first id match. -/
def getOrder (st : ExchangeState) (orderId : String) : Option OrderData :=
  let rec go : List (String × List OrderData) → Option OrderData
    | [] => none
    | kv :: rest =>
        match kv.2.find? (fun o => o.orderId = orderId) with
        | some o => some o
        | none => go rest
  go st.orders

/-- Delete the first order with the given id from one symbol's list; `none`
when absent. -/
def deleteFromList (orderId : String) : List OrderData → Option (List OrderData)
  | [] => none
  | o :: rest =>
      if o.orderId = orderId then some rest
      else
        match deleteFromList orderId rest with
        | some rest2 => some (o :: rest2)
        | none => none

/-- `OrdersRepository.delete_order`: remove the first order with this id
anywhere in the repository; the Bool reports whether one was found. -/
def deleteOrder (st : ExchangeState) (orderId : String) : Bool × ExchangeState :=
  let rec go : List (String × List OrderData) →
      Option (List (String × List OrderData))
    | [] => none
    | kv :: rest =>
        match deleteFromList orderId kv.2 with
        | some l2 => some ((kv.1, l2) :: rest)
        | none =>
            match go rest with
            | some rest2 => some (kv :: rest2)
            | none => none
  match go st.orders with
  | some orders2 => (true, { st with orders := orders2 })
  | none => (false, st)

/-- `TradesRepository.add_trade`, flattened (see `ExchangeState`). -/
def addTrade (st : ExchangeState) (t : TradeData) : ExchangeState :=
  { st with trades := st.trades ++ [t] }

/-- `Exchange._complete_order` (exchange.py lines 287-429): realize the fill,
update the balance, record and dispatch the trade, delete and dispatch the
filled order, rebuild and dispatch the position.  Events are dispatched in
the code's order: trade, order, position. -/
def completeOrder (st : ExchangeState) (order : OrderData) (candle : CandleData) :
    ExchangeState × List ExchangeEvent :=
  let fee := if order.type = OrderType.limit then st.makerFee else st.takerFee
  let tradeQuantity := if order.side = OrderSide.sell then -order.quantity else order.quantity
  let tradeSize := tradeQuantity * order.price
  let position := getPosition st order.symbol order.positionSide
  let value := order.quantity * (order.price - position.entryPrice)
  let commission := |order.quantity * order.price * fee|
  -- balance update and realized P&L by case; the Python `else` branch splits
  -- into is_opening (long-buy / short-sell) and an unreachable fallback that
  -- also only deducts the commission, so both collapse to the last case here
  let changePnl : ℚ × ℚ :=
    if order.positionSide = PositionSide.long ∧ order.side = OrderSide.sell then
      (value - commission, value - commission)
    else if order.positionSide = PositionSide.short ∧ order.side = OrderSide.buy then
      (-value - commission, -value - commission)
    else (-commission, 0)
  let st1 := { st with balance := st.balance + changePnl.1 }
  let newPositionAmount := position.amount + tradeQuantity
  let closesCompletely := newPositionAmount = 0
  let trade : TradeData :=
    { orderId := order.orderId, timestamp := candle.timestamp, symbol := order.symbol
      positionSide := order.positionSide, side := order.side, price := order.price
      quantity := order.quantity, commission := |order.quantity * order.price * fee|
      realizedPnl := changePnl.2, closesPositionCompletely := decide closesCompletely }
  let st2 := addTrade st1 trade
  let filledOrder := { order with status := OrderStatus.filled }
  let st3 := (deleteOrder st2 order.orderId).2
  -- position update (exchange.py lines 393-426)
  let posC :=
    { position with commission :=
        position.commission + (if tradeQuantity > 0 then |trade.commission| else -|trade.commission|) }
  let newPosition :=
    if newPositionAmount = 0 then flatPosition trade.symbol trade.positionSide
    else
      let tradeSizeAbs := |tradeSize|
      let posU :=
        if (posC.side = PositionSide.long ∧ trade.side = OrderSide.buy) ∨
           (posC.side = PositionSide.short ∧ trade.side = OrderSide.sell) then
          { posC with
            breakEven := ((posC.breakEven * |posC.amount|) + tradeSizeAbs + trade.commission * 2) /
              |newPositionAmount|
            entryPrice := ((posC.entryPrice * |posC.amount|) + tradeSizeAbs) / |newPositionAmount| }
        else
          { posC with
            breakEven := ((posC.breakEven * |posC.amount|) + tradeSizeAbs) / |newPositionAmount| }
      { positionAddTrade posU trade with amount := newPositionAmount }
  let st4 := setPosition st3 newPosition
  (st4,
    [ExchangeEvent.tradeEvent trade, ExchangeEvent.orderEvent filledOrder,
     ExchangeEvent.positionEvent newPosition])

/-- `Exchange.cancel_order` (exchange.py lines 177-191): a missing id returns
`False` without touching anything; otherwise delete, dispatch the canceled
order, and drop the internal candle listener when the symbol has no resting
orders left. -/
def cancelOrder (st : ExchangeState) (orderId : String) :
    Bool × ExchangeState × List ExchangeEvent :=
  match getOrder st orderId with
  | none => (false, st, [])
  | some order =>
      let deletedSt := deleteOrder st orderId
      let canceled := { order with status := OrderStatus.canceled }
      let remaining := symbolOrders deletedSt.2 order.symbol
      let finalSt :=
        if remaining.length = 0 then
          { deletedSt.2 with
            internalListeners := deletedSt.2.internalListeners.filter (fun s => s ≠ order.symbol) }
        else deletedSt.2
      (deletedSt.1, finalSt, [ExchangeEvent.orderEvent canceled])

/-- Worst-case unrealized P&L plus balance, as computed at the top of
`Exchange._on_candle_update` (exchange.py lines 206-222): the candle low for a
held long, the candle high for a held short. -/
def realBalanceAt (st : ExchangeState) (candle : CandleData) : ℚ :=
  let longPos := getPosition st candle.symbol PositionSide.long
  let shortPos := getPosition st candle.symbol PositionSide.short
  let longUnrealized :=
    if longPos.amount > 0 then longPos.amount * (candle.lowPrice - longPos.entryPrice) else 0
  let shortUnrealized :=
    if shortPos.amount < 0 then |shortPos.amount| * (shortPos.entryPrice - candle.highPrice) else 0
  st.balance + longUnrealized + shortUnrealized

/-- The liquidation segment of `Exchange._on_candle_update` (exchange.py lines
234-258): strictly negative worst-case balance zeroes the account, resets both
positions to flat and dispatches a position event for each. -/
def liquidationStep (st : ExchangeState) (candle : CandleData) :
    ExchangeState × List ExchangeEvent :=
  if realBalanceAt st candle < 0 then
    let longFlat := flatPosition candle.symbol PositionSide.long
    let shortFlat := flatPosition candle.symbol PositionSide.short
    let st1 := { st with balance := 0 }
    let st2 := setPosition (setPosition st1 longFlat) shortFlat
    (st2, [ExchangeEvent.positionEvent longFlat, ExchangeEvent.positionEvent shortFlat])
  else (st, [])

/-- Fill condition for a resting order against a candle (exchange.py lines
261-285); the long and short branches test the same price conditions per
side. -/
def orderTriggers (o : OrderData) (c : CandleData) : Bool :=
  match o.positionSide with
  | PositionSide.long =>
      (o.side = OrderSide.buy ∧ (c.closePrice ≤ o.price ∨ c.lowPrice ≤ o.price)) ∨
      (o.side = OrderSide.sell ∧ (o.price ≤ c.closePrice ∨ o.price ≤ c.highPrice))
  | PositionSide.short =>
      (o.side = OrderSide.sell ∧ (o.price ≤ c.closePrice ∨ o.price ≤ c.highPrice)) ∨
      (o.side = OrderSide.buy ∧ (c.closePrice ≤ o.price ∨ c.lowPrice ≤ o.price))

/-- The order-matching loop of `_on_candle_update`.  Python iterates over the
live per-symbol list while `_complete_order` deletes filled orders from it, so
the iterator index advances over the current list each step (a fill therefore
skips the element that slid into its slot); we model exactly that by
re-reading the live list at an increasing index.  The fuel is the initial
list length, which bounds the number of iterations. -/
def matchOrdersLoop (c : CandleData) (sym : String) :
    ℕ → ℕ → ExchangeState → ExchangeState × List ExchangeEvent
  | 0, _, st => (st, [])
  | fuel + 1, i, st =>
      let live := symbolOrders st sym
      if h : i < live.length then
        let o := live.get ⟨i, h⟩
        if orderTriggers o c then
          let step := completeOrder st o c
          let rest := matchOrdersLoop c sym fuel (i + 1) step.1
          (rest.1, step.2 ++ rest.2)
        else matchOrdersLoop c sym fuel (i + 1) st
      else (st, [])

/-- `Exchange._on_candle_update` (exchange.py lines 201-285): the liquidation
check followed by the matching loop over the symbol's resting orders (the
order list is fetched before the liquidation check, which leaves it
untouched). -/
def onCandleUpdate (st : ExchangeState) (candle : CandleData) :
    ExchangeState × List ExchangeEvent :=
  let n := (symbolOrders st candle.symbol).length
  let liq := liquidationStep st candle
  let matched := matchOrdersLoop candle candle.symbol n 0 liq.1
  (matched.1, liq.2 ++ matched.2)

/-! ## Scheduler (src/trading/agents/scheduler_agent.py) -/

/-- One stored backtest time range (`{"start": int, "end": int, "run_id": str}`;
the run id plays no role in the claims). -/
structure RangeRec where
  start : ℤ
  stop : ℤ
deriving DecidableEq

/-- `SchedulerAgent._calculate_overlap` (scheduler_agent.py lines 435-445):
overlap duration as a percentage of the first range's duration. -/
def calculateOverlap (start1 end1 start2 end2 : ℤ) : ℚ :=
  let overlapStart := max start1 start2
  let overlapEnd := min end1 end2
  if overlapStart ≥ overlapEnd then 0
  else
    let overlapDuration := overlapEnd - overlapStart
    let currentBacktestDuration := end1 - start1
    if currentBacktestDuration = 0 then 0
    else ((overlapDuration : ℚ) / (currentBacktestDuration : ℚ)) * 100

/-- `max(previous_ranges, key=lambda x: int(x["end"]))` — Python `max` keeps
the first maximal element on ties. -/
def mostRecentRange : List RangeRec → Option RangeRec
  | [] => none
  | r :: rest => some (rest.foldl (fun best x => if best.stop < x.stop then x else best) r)

/-- The requested backtest time range computed by `SchedulerAgent.run_cycle`
(scheduler_agent.py lines 172-210): first backtest of a key ends one minute
ago; later ones end at `previous.start + duration × pct/100`, clamped to one
minute ago when that would not be in the past; the start is always one
duration before the end.  `int(duration_ms * (pct / 100.0))` is modelled as
exact rational arithmetic truncated toward zero. -/
def computeCycleRange (previousRanges : List RangeRec) (nowMs durationMs : ℤ)
    (maxOverlapPct : ℚ) : ℤ × ℤ :=
  match mostRecentRange previousRanges with
  | none =>
      let endTime := nowMs - 60000
      (endTime - durationMs, endTime)
  | some mostRecent =>
      let targetOverlap := pyTrunc ((durationMs : ℚ) * (maxOverlapPct / 100))
      let calculatedEndTime := mostRecent.start + targetOverlap
      let endTime := if calculatedEndTime ≥ nowMs then nowMs - 60000 else calculatedEndTime
      (endTime - durationMs, endTime)

/-- One `run_cycle` pass as it affects the stored ranges of the current
parameter key and period (scheduler_agent.py lines 167-247): compute the
requested range, run the backtest, and append the start/end the backtest
reports.  `BacktestRunner._calculate_results` (runner.py lines 515-572) builds
`BacktestResults` with `start_time = config.start_time` (the requested start,
passed through unchanged by `BacktestAgent` and the orchestrator) and
`end_time = int(time.time() * 1000)` — the wall-clock time at which the
results are computed, supplied here as `completionWallClockMs`. -/
def runCycleStoredRanges (prev : List RangeRec) (nowMs durationMs : ℤ)
    (maxOverlapPct : ℚ) (completionWallClockMs : ℤ) : List RangeRec :=
  let range := computeCycleRange prev nowMs durationMs maxOverlapPct
  prev ++ [{ start := range.1, stop := completionWallClockMs }]

/-- Scheduler state slice touched by `reset_daily_memory` and the per-period
book-keeping.  `configSnapshot` stands for `self.config` (opaque here);
`episodicMemory` is the agent memory dict with opaque values. -/
structure SchedulerStateData where
  configSnapshot : String
  episodicMemory : List (String × String)
  parameterCombinations : List (String × List RangeRec)
  executionsToday : ℕ
  lastResetDay : Option ℤ
  currentPeriodIndex : ℕ
  backtestCountInPeriod : ℕ
  passedBacktestsInPeriod : ℕ
  periodParameterCombinations : List (ℕ × List (String × List RangeRec))
deriving DecidableEq

/-- `SchedulerAgent._should_reset_daily` (scheduler_agent.py lines 419-426)
with UTC dates as day ordinals. -/
def shouldResetDaily (st : SchedulerStateData) (todayUtc : ℤ) : Bool :=
  match st.lastResetDay with
  | none => true
  | some d => decide (d < todayUtc)

/-- `SchedulerAgent.reset_daily_memory` (scheduler_agent.py lines 354-375):
clear the episodic memory keeping the `config` entry, clear the flat
`parameter_combinations` map, zero `executions_today` and record today. -/
def resetDailyMemory (st : SchedulerStateData) (todayUtc : ℤ) : SchedulerStateData :=
  let configBackup := alookup st.episodicMemory "config"
  { st with
    episodicMemory :=
      match configBackup with
      | some c => [("config", c)]
      | none => []
    parameterCombinations := []
    executionsToday := 0
    lastResetDay := some todayUtc }

/-! ## Candle store
(src/trading/infrastructure/simulator/adapters/candles_repository.py)

Per-symbol SQLite tables keyed by `(timestamp, timeframe)` are modelled as
association lists from the lowered symbol to a list of rows; `INSERT OR
REPLACE` removes the row with the same primary key and appends the new one.
Prices pass through `str` / `Decimal` round trips which we model as exact. -/

/-- One row of a `{symbol}_kline` table. -/
structure CandleRow where
  timeframe : String
  timestamp : ℤ
  openPrice : ℚ
  highPrice : ℚ
  lowPrice : ℚ
  closePrice : ℚ
  volume : ℚ
deriving DecidableEq

/-- A candle as handed to `add_candles` / returned by `get_next_candle`. -/
structure StoredCandle where
  symbol : String
  timeframe : String
  timestamp : ℤ
  openPrice : ℚ
  highPrice : ℚ
  lowPrice : ℚ
  closePrice : ℚ
  volume : ℚ
deriving DecidableEq

/-- The table row written for a candle (the symbol is carried by the table
name, taken from the first candle of the batch). -/
def rowOfCandle (c : StoredCandle) : CandleRow :=
  { timeframe := c.timeframe, timestamp := c.timestamp, openPrice := c.openPrice
    highPrice := c.highPrice, lowPrice := c.lowPrice, closePrice := c.closePrice
    volume := c.volume }

/-- `INSERT OR REPLACE` upsert on primary key `(timestamp, timeframe)`. -/
def upsertRow (table : List CandleRow) (row : CandleRow) : List CandleRow :=
  table.filter (fun r => !(decide (r.timestamp = row.timestamp) &&
    decide (r.timeframe = row.timeframe))) ++ [row]

/-- Replace-or-append on the table map. -/
def setTable (store : List (String × List CandleRow)) (key : String)
    (table : List CandleRow) : List (String × List CandleRow) :=
  match store with
  | [] => [(key, table)]
  | kv :: rest => if kv.1 = key then (key, table) :: rest else kv :: setTable rest key table

/-- `CandlesRepository.add_candles` (candles_repository.py lines 73-157): an
empty batch is a no-op; otherwise every candle of the batch is upserted into
the table named after the first candle's lowered symbol, in one transaction. -/
def addCandles (store : List (String × List CandleRow)) (candles : List StoredCandle) :
    List (String × List CandleRow) :=
  match candles with
  | [] => store
  | c0 :: _ =>
      let key := pyLower c0.symbol
      let table := (alookup store key).getD []
      let table2 := candles.foldl (fun t c => upsertRow t (rowOfCandle c)) table
      setTable store key table2

/-- First row of minimal timestamp (SQL `ORDER BY timestamp ASC LIMIT 1`):
the fold keeps the earlier row on ties, which only matters for tables that
violate primary-key uniqueness. -/
def minByTimestamp : List CandleRow → Option CandleRow
  | [] => none
  | r :: rest => some (rest.foldl (fun best x => if x.timestamp < best.timestamp then x else best) r)

/-- `CandlesRepository.get_next_candle` (candles_repository.py lines 159-200):
`SELECT ... WHERE timestamp > ? AND timeframe = ? ORDER BY timestamp ASC
LIMIT 1` on the symbol's table — strictly after the given timestamp — rebuilt
into a candle carrying the queried symbol. -/
def getNextCandle (store : List (String × List CandleRow)) (symbol : String)
    (timestamp : ℤ) (timeframe : String) : Option StoredCandle :=
  match alookup store (pyLower symbol) with
  | none => none
  | some table =>
      let rows := table.filter (fun r => decide (timestamp < r.timestamp) &&
        decide (r.timeframe = timeframe))
      match minByTimestamp rows with
      | none => none
      | some r =>
          some { symbol := symbol, timeframe := r.timeframe, timestamp := r.timestamp
                 openPrice := r.openPrice, highPrice := r.highPrice, lowPrice := r.lowPrice
                 closePrice := r.closePrice, volume := r.volume }

/-! ## Statement helpers and concrete instances -/

/-- Claim-side reading of "failing metric within 20% of its threshold", the
predicate `_generate_recommendation` tests per failing KPI (metric ≥ 0.8 ×
threshold for ≥-style KPIs, |metric| ≤ 1.2 × |threshold| for max_drawdown). -/
def within20OfThreshold (metrics kpis : List (String × ℚ)) (name : String) : Prop :=
  if name = "max_drawdown" then
    |(alookup metrics name).getD 0| ≤ |(alookup kpis name).getD 0| * (12 / 10)
  else (alookup kpis name).getD 0 * (8 / 10) ≤ (alookup metrics name).getD 0

instance (metrics kpis : List (String × ℚ)) (name : String) :
    Decidable (within20OfThreshold metrics kpis name) := by
  unfold within20OfThreshold
  exact inferInstance

/-- The exchange state right after the liquidation branch fires for a candle:
balance zeroed, both positions overwritten flat. -/
def liquidatedExchangeState (st : ExchangeState) (candle : CandleData) : ExchangeState :=
  setPosition (setPosition { st with balance := 0 }
      (flatPosition candle.symbol PositionSide.long))
    (flatPosition candle.symbol PositionSide.short)

/-- Two scheduler cycles for the same parameter key: the first at wall time
1 800 000 000 000 ms with the backtest finishing two minutes later, the second
one hour later, again finishing two minutes after it starts.  Period length
one day, overlap percentage 20. -/
def c1StoredRanges : List RangeRec :=
  runCycleStoredRanges
    (runCycleStoredRanges [] 1800000000000 86400000 20 1800000120000)
    1800003600000 86400000 20 1800003720000

/-- C2 inputs: both KPIs fail, `sharpe_ratio` within 20% of its threshold
(1.9 ≥ 1.6), `profit_factor` not within 20% (1.1 < 1.2) and not critical
(1.1 ≥ 1.0). -/
def c2Metrics : List (String × ℚ) := [("sharpe_ratio", 19 / 10), ("profit_factor", 11 / 10)]

/-- C2 KPI thresholds (the defaults minus max_drawdown, which would pass). -/
def c2Kpis : List (String × ℚ) := [("sharpe_ratio", 2), ("profit_factor", 3 / 2)]

/-- C3 exchange before any order: maker fee 0.0002, taker fee 0.0005,
parametric balance. -/
def c3InitialState (b : ℚ) : ExchangeState :=
  { balance := b, leverages := [("btcusdt", 100)], positions := [], orders := []
    trades := [], makerFee := 2 / 10000, takerFee := 5 / 10000, maxNotional := 50000
    internalListeners := [] }

/-- Candle at which both C3 fills are booked. -/
def c3Candle : CandleData :=
  { symbol := "btcusdt", timestamp := 1744023500000, openPrice := 50000
    highPrice := 51500, lowPrice := 49500, closePrice := 50050 }

/-- C3 limit buy: long 0.1 at 50 000. -/
def c3BuyOrder : OrderData :=
  { orderId := "o1", symbol := "btcusdt", positionSide := PositionSide.long
    side := OrderSide.buy, type := OrderType.limit, price := 50000, quantity := 1 / 10
    status := OrderStatus.new }

/-- C3 limit sell: close the long 0.1 at 51 000. -/
def c3SellOrder : OrderData :=
  { orderId := "o2", symbol := "btcusdt", positionSide := PositionSide.long
    side := OrderSide.sell, type := OrderType.limit, price := 51000, quantity := 1 / 10
    status := OrderStatus.new }

/-- State after the opening fill. -/
def c3MidState (b : ℚ) : ExchangeState :=
  (completeOrder (c3InitialState b) c3BuyOrder c3Candle).1

/-- State after the closing fill. -/
def c3FinalState (b : ℚ) : ExchangeState :=
  (completeOrder (c3MidState b) c3SellOrder c3Candle).1

/-- The opening trade `_complete_order` records for C3. -/
def c3OpenTrade : TradeData :=
  { orderId := "o1", timestamp := 1744023500000, symbol := "btcusdt"
    positionSide := PositionSide.long, side := OrderSide.buy, price := 50000
    quantity := 1 / 10, commission := 1, realizedPnl := 0
    closesPositionCompletely := false }

/-- The closing trade `_complete_order` records for C3. -/
def c3CloseTrade : TradeData :=
  { orderId := "o2", timestamp := 1744023500000, symbol := "btcusdt"
    positionSide := PositionSide.long, side := OrderSide.sell, price := 51000
    quantity := 1 / 10, commission := 51 / 50, realizedPnl := 4949 / 50
    closesPositionCompletely := true }

/-- C4 state: balance 10, long 1 unit at entry 100, no resting orders. -/
def c4State : ExchangeState :=
  { balance := 10, leverages := []
    positions :=
      [(("btcusdt", PositionSide.long),
        { symbol := "btcusdt", side := PositionSide.long, amount := 1, entryPrice := 100
          breakEven := 100, commission := 0, trades := [] })]
    orders := [], trades := [], makerFee := 0, takerFee := 0, maxNotional := 0
    internalListeners := [] }

/-- Candle whose low makes the worst-case balance exactly 0:
10 + 1 × (90 − 100) = 0. -/
def c4BoundaryCandle : CandleData :=
  { symbol := "btcusdt", timestamp := 0, openPrice := 95, highPrice := 96
    lowPrice := 90, closePrice := 95 }

/-- Candle whose low makes the worst-case balance −1. -/
def c4CrashCandle : CandleData :=
  { symbol := "btcusdt", timestamp := 0, openPrice := 95, highPrice := 96
    lowPrice := 89, closePrice := 95 }

/-- C5 request: parameter space lists `rsi_limits`; current triple
[30, 50, 70]. -/
def c5Request : OptimizationRequestData :=
  { runId := "r1", strategyName := "carga_descarga"
    parameterSpace := [("rsi_limits", [])]
    backtestConfigRsiLimits := some (some [30, 50, 70]) }

/-- C5 previous results: most recent profit factor 1.0 < 1.5. -/
def c5Prev : List PrevResultMetrics := [{ profitFactor := 1, maxDrawdown := 5 }]

/-- C6 request: the parameter space declares `rsi_limits` with value list
[10, 20, 30]. -/
def c6Request : OptimizationRequestData :=
  { runId := "r2", strategyName := "carga_descarga"
    parameterSpace := [("rsi_limits", [10, 20, 30])]
    backtestConfigRsiLimits := none }

/-- C6 suggested parameters: a descending `rsi_limits` triple the dedicated
branch rejects but whose members all lie in the space's value list. -/
def c6Suggested : List (String × PyVal) :=
  [("rsi_limits", PyVal.list [PyVal.num 30, PyVal.num 20, PyVal.num 10])]

/-- C7 scheduler state: mid-qualification, with per-period ranges and
counters populated and the last reset a day ago. -/
def c7State : SchedulerStateData :=
  { configSnapshot := "cfg"
    episodicMemory := [("config", "cfgdump"), ("cycle_1", "x")]
    parameterCombinations := [("key", [{ start := 0, stop := 1 }])]
    executionsToday := 4, lastResetDay := some 19000, currentPeriodIndex := 2
    backtestCountInPeriod := 5, passedBacktestsInPeriod := 3
    periodParameterCombinations := [(0, [("key", [{ start := 0, stop := 1 }])])] }

/-- C8 candle inserted into an empty store. -/
def c8Candle : StoredCandle :=
  { symbol := "BTCUSDT", timeframe := "1m", timestamp := 1744023500000
    openPrice := 50000, highPrice := 50100, lowPrice := 49000, closePrice := 50050
    volume := 100 }

/-- The store after inserting `c8Candle`. -/
def c8Store : List (String × List CandleRow) := addCandles [] [c8Candle]

/-- C9 exchange state: one resting order with id "o1", some balance and a
position, so that "unchanged" is not vacuous. -/
def c9State : ExchangeState :=
  { balance := 2500, leverages := [("btcusdt", 100)]
    positions :=
      [(("btcusdt", PositionSide.long),
        { symbol := "btcusdt", side := PositionSide.long, amount := 1 / 10
          entryPrice := 50000, breakEven := 50020, commission := 1, trades := [] })]
    orders := [("btcusdt",
      [{ orderId := "o1", symbol := "btcusdt", positionSide := PositionSide.long
         side := OrderSide.buy, type := OrderType.limit, price := 49500
         quantity := 1 / 10, status := OrderStatus.new }])]
    trades := [], makerFee := 2 / 10000, takerFee := 5 / 10000, maxNotional := 50000
    internalListeners := ["btcusdt"] }

/-- C10 metrics map: `sharpe_ratio` absent. -/
def c10Metrics : List (String × ℚ) := [("profit_factor", 2)]

/-- C10 KPI map: requests `sharpe_ratio`, which the metrics map lacks. -/
def c10Kpis : List (String × ℚ) := [("sharpe_ratio", 2), ("profit_factor", 3 / 2)]

/-! ## Helper lemmas -/

theorem alookup_mem {α : Type} {l : List (String × α)} {k : String} {v : α}
    (h : alookup l k = some v) : (k, v) ∈ l := by
  induction l with
  | nil => simp [alookup] at h
  | cons kv rest ih =>
      obtain ⟨k1, v1⟩ := kv
      unfold alookup at h
      by_cases hk : k1 = k
      · subst hk
        simp at h
        subst h
        exact List.mem_cons_self _ _
      · rw [if_neg hk] at h
        exact List.mem_cons_of_mem _ (ih h)

theorem pyLower_btcusdt_lower : pyLower "btcusdt" = "btcusdt" := rfl

theorem pyLower_btcusdt_upper : pyLower "BTCUSDT" = "btcusdt" := rfl

theorem pyTrunc_intCast (n : ℤ) : pyTrunc (n : ℚ) = n := by
  unfold pyTrunc
  rw [Rat.num_intCast, Rat.den_intCast]
  simp

/-! ## Claim theorems -/

/-- C1 (code bug witness): two consecutive `run_cycle` passes for the same
parameter key and period store ranges built from the values the backtest
reports — `BacktestResults.start_time` is the requested start but
`BacktestResults.end_time` is the wall-clock completion time
(`int(time.time() * 1000)` in `_calculate_results`).  The second stored range
therefore contains the whole first range, and `_calculate_overlap` measured
against the first range's duration is 100%, far beyond the claimed
`max_overlap_percentage = 20` even allowing for the one-minute clamp. -/
theorem c1_stored_overlap_violation :
    c1StoredRanges =
      [{ start := 1799913540000, stop := 1800000120000 },
       { start := 1799844420000, stop := 1800003720000 }] ∧
    calculateOverlap 1799913540000 1800000120000 1799844420000 1800003720000 = 100 ∧
    ¬ ((100 : ℚ) ≤ 20) := by
  have htrunc : pyTrunc ((86400000 : ℤ) * ((20 : ℚ) / 100)) = 17280000 := by
    have h1 : ((86400000 : ℤ) : ℚ) * ((20 : ℚ) / 100) = ((17280000 : ℤ) : ℚ) := by
      norm_num
    rw [h1, pyTrunc_intCast]
  refine ⟨?_, ?_, by norm_num⟩
  · simp only [c1StoredRanges, runCycleStoredRanges, computeCycleRange, mostRecentRange,
      List.foldl_nil, List.foldl_cons, htrunc]
    norm_num
  · simp only [calculateOverlap]
    norm_num

/-- C2 counterexample: with both KPIs failing, `sharpe_ratio` within 20% of
its threshold but `profit_factor` not (and no critical failure), the code
recommends "optimize" although not every failing metric is within 20% — the
claim, which requires "every", demands "reject" here. -/
theorem c2_some_not_every_counterexample :
    (evaluate c2Metrics c2Kpis).passed = false ∧
    criticalFailures (kpiCompliance c2Metrics c2Kpis) c2Metrics c2Kpis = false ∧
    (evaluate c2Metrics c2Kpis).recommendation = "optimize" ∧
    alookup (kpiCompliance c2Metrics c2Kpis) "profit_factor" = some false ∧
    ¬ within20OfThreshold c2Metrics c2Kpis "profit_factor" := by
  refine ⟨?_, ?_, ?_, ?_, ?_⟩ <;>
    (simp [evaluate, c2Metrics, c2Kpis, kpiCompliance, evaluationPassed,
      generateRecommendation, failingCloseToThreshold, criticalFailures, alookup,
      within20OfThreshold] <;> norm_num)

/-- C4 counterexample: with balance 10 and a long of 1 at entry 100, a candle
low of 90 makes balance + worst-case unrealized P&L exactly 0; the claim
(`≤ 0`) demands liquidation with position events, but `_on_candle_update`
tests `real_balance < 0` strictly and does nothing: no event is emitted and
the state is untouched. -/
theorem c4_boundary_counterexample :
    realBalanceAt c4State c4BoundaryCandle = 0 ∧
    onCandleUpdate c4State c4BoundaryCandle = (c4State, []) := by
  have hreal : realBalanceAt c4State c4BoundaryCandle = 0 := by
    simp [realBalanceAt, getPosition, posLookup, c4State, c4BoundaryCandle,
      pyLower_btcusdt_lower, flatPosition] <;> norm_num
  refine ⟨hreal, ?_⟩
  have hliq : liquidationStep c4State c4BoundaryCandle = (c4State, []) := by
    rw [liquidationStep, if_neg]
    rw [hreal]
    norm_num
  simp only [onCandleUpdate, hliq]
  norm_num [symbolOrders, c4State, alookup, pyLower_btcusdt_lower, matchOrdersLoop]

/-- C5 counterexample: with the most recent profit factor 1.0 < 1.5 and
current triple [30, 50, 70], `_fallback_optimize` returns rsi_limits
[25, 50, 75] — it raises the upper bound by 5 instead of lowering it as the
claim ("both outer RSI bounds are lowered by 5") requires, which would give
[25, 50, 65]. -/
theorem c5_upper_bound_counterexample :
    (fallbackOptimize c5Request c5Prev).map
        (fun r => alookup r.optimizedParameters "rsi_limits") =
      some (some (PyVal.list [PyVal.num 25, PyVal.num 50, PyVal.num 75])) ∧
    PyVal.list [PyVal.num 25, PyVal.num 50, PyVal.num 75] ≠
      PyVal.list [PyVal.num 25, PyVal.num 50, PyVal.num 65] := by
  constructor
  · norm_num [fallbackOptimize, c5Request, c5Prev, alookup, fallbackRsiCurrent,
      List.getLast?, max_def, min_def]
  · intro h
    have h2 := h
    simp only [PyVal.list.injEq, List.cons.injEq, PyVal.num.injEq] at h2
    norm_num at h2

/-- C6 counterexample: the suggestion rsi_limits = [30, 20, 10] is rejected by
the dedicated validation branch (not ascending) but re-admitted unchanged by
the generic parameter-space loop because each member lies in the space's value
list, so the validated output — and hence the LLM-path OptimizationResult —
carries a non-ascending rsi_limits triple. -/
theorem c6_validator_counterexample :
    (parseLlmResult c6Request c6Suggested (3 / 4) "test-model").map
        (fun r => alookup r.optimizedParameters "rsi_limits") =
      some (some (PyVal.list [PyVal.num 30, PyVal.num 20, PyVal.num 10])) ∧
    ¬ ((30 : ℚ) < 20) := by
  constructor
  · rfl
  · norm_num

/-- C7 counterexample: `reset_daily_memory` leaves
`period_parameter_combinations` and the per-period counters untouched, while
the claim says they are cleared. -/
theorem c7_reset_counterexample :
    shouldResetDaily c7State 20000 = true ∧
    (resetDailyMemory c7State 20000).periodParameterCombinations =
      c7State.periodParameterCombinations ∧
    c7State.periodParameterCombinations ≠ [] ∧
    (resetDailyMemory c7State 20000).backtestCountInPeriod = 5 ∧
    (resetDailyMemory c7State 20000).passedBacktestsInPeriod = 3 := by
  refine ⟨by decide, rfl, by decide, rfl, rfl⟩

/-- C8 counterexample: after inserting a candle at timestamp t, calling
`get_next_candle` with that same timestamp t returns nothing (the query is
`timestamp > ?`, strictly), although the row is stored — the claim expects the
same row back. -/
theorem c8_same_timestamp_counterexample :
    alookup c8Store "btcusdt" = some [rowOfCandle c8Candle] ∧
    getNextCandle c8Store "BTCUSDT" 1744023500000 "1m" = none := by
  have hstore : c8Store = [("btcusdt", [rowOfCandle c8Candle])] := by
    simp [c8Store, addCandles, c8Candle, pyLower_btcusdt_upper, alookup, upsertRow,
      setTable, rowOfCandle]
  constructor
  · rw [hstore]
    simp [alookup]
  · rw [getNextCandle, hstore, pyLower_btcusdt_upper]
    norm_num [alookup, minByTimestamp, rowOfCandle, c8Candle]

/-- C9: cancelling an order id that is not in the orders repository returns
`False`, leaves the whole exchange state (balance, positions, resting orders,
recorded trades, listener registrations) unchanged and emits no event. -/
theorem c9_cancel_missing_noop (st : ExchangeState) (orderId : String)
    (h : getOrder st orderId = none) :
    cancelOrder st orderId = (false, st, []) := by
  unfold cancelOrder
  rw [h]

/-- C9 witness at a concrete populated state. -/
theorem c9_cancel_missing_noop_witness :
    cancelOrder c9State "missing" = (false, c9State, []) :=
  c9_cancel_missing_noop c9State "missing" (by decide)

/-- C10: a KPI name present in the KPI map but absent from the metrics map is
recorded as non-compliant, and this alone forces `evaluation_passed = false`;
`evaluate` is total on such inputs (the code logs a warning and continues). -/
theorem c10_missing_metric_fails (metrics kpis : List (String × ℚ))
    (name : String) (thr : ℚ)
    (hkpi : alookup kpis name = some thr)
    (hmiss : alookup metrics name = none) :
    alookup (kpiCompliance metrics kpis) name = some false ∧
    (evaluate metrics kpis).passed = false := by
  have hcomp : alookup (kpiCompliance metrics kpis) name = some false := by
    induction kpis with
    | nil => simp [alookup] at hkpi
    | cons kv rest ih =>
        obtain ⟨k1, v1⟩ := kv
        by_cases hk : k1 = name
        · subst hk
          simp [kpiCompliance, alookup, hmiss]
        · unfold alookup at hkpi
          simp only [hk, if_false, ite_false] at hkpi
          simpa only [kpiCompliance, List.map_cons, alookup, hk, if_false, ite_false]
            using ih hkpi
  refine ⟨hcomp, ?_⟩
  have hmem := alookup_mem hcomp
  show evaluationPassed (kpiCompliance metrics kpis) = false
  unfold evaluationPassed
  cases hl : kpiCompliance metrics kpis with
  | nil => rw [hl] at hmem; simp at hmem
  | cons a l =>
      rw [hl] at hmem
      simp only [List.isEmpty_cons, Bool.false_eq_true, if_false]
      rw [Bool.eq_false_iff]
      intro hall
      rw [List.all_eq_true] at hall
      have h2 := hall _ hmem
      simp at h2

/-- C10 witness: the default-style KPI map with a metrics map lacking
`sharpe_ratio`. -/
theorem c10_missing_metric_fails_witness :
    alookup (kpiCompliance c10Metrics c10Kpis) "sharpe_ratio" = some false ∧
    (evaluate c10Metrics c10Kpis).passed = false :=
  c10_missing_metric_fails c10Metrics c10Kpis "sharpe_ratio" 2 (by decide) (by decide)

/-- C7 (amended): when the daily-reset guard holds, `reset_daily_memory`
clears the episodic memory except for the `config` snapshot, clears the flat
`parameter_combinations` map, resets `executions_today` to 0 and records
today as the reset day; the configuration, the current period index, the
per-period counters and `period_parameter_combinations` are all unchanged. -/
theorem c7_reset_daily_amended (st : SchedulerStateData) (today : ℤ)
    (h : shouldResetDaily st today = true) :
    (resetDailyMemory st today).configSnapshot = st.configSnapshot ∧
    alookup (resetDailyMemory st today).episodicMemory "config" =
      alookup st.episodicMemory "config" ∧
    (resetDailyMemory st today).parameterCombinations = [] ∧
    (resetDailyMemory st today).executionsToday = 0 ∧
    (resetDailyMemory st today).lastResetDay = some today ∧
    (resetDailyMemory st today).currentPeriodIndex = st.currentPeriodIndex ∧
    (resetDailyMemory st today).backtestCountInPeriod = st.backtestCountInPeriod ∧
    (resetDailyMemory st today).passedBacktestsInPeriod = st.passedBacktestsInPeriod ∧
    (resetDailyMemory st today).periodParameterCombinations =
      st.periodParameterCombinations := by
  unfold resetDailyMemory
  cases hc : alookup st.episodicMemory "config" <;> simp [alookup, hc]

/-- C7 witness: the amended reset behaviour at the concrete mid-qualification
state. -/
theorem c7_reset_daily_amended_witness :
    (resetDailyMemory c7State 20000).executionsToday = 0 ∧
    (resetDailyMemory c7State 20000).periodParameterCombinations =
      c7State.periodParameterCombinations :=
  ⟨(c7_reset_daily_amended c7State 20000 (by decide)).2.2.2.1,
   (c7_reset_daily_amended c7State 20000 (by decide)).2.2.2.2.2.2.2.2⟩

/-- C5 (amended): when the LLM is unavailable and `_fallback_optimize` runs
with a previous result and `rsi_limits` in the parameter space, a most recent
`profit_factor < 1.5` yields `[max 5 (low − 5), mid, min 95 (high + 5)]`
(lower bound lowered by 5 with floor 5, upper bound RAISED by 5 with ceiling
95, middle unchanged); otherwise `max_drawdown > 10` yields
`[min 30 (low + 5), mid, max 70 (high − 5)]`; the confidence is exactly 0.4
and metadata records `method = fallback_deterministic`. -/
theorem c5_fallback_amended (req : OptimizationRequestData)
    (prev : List PrevResultMetrics) (latest : PrevResultMetrics) (a b c : ℤ)
    (hlast : prev.getLast? = some latest)
    (hspace : (alookup req.parameterSpace "rsi_limits").isSome = true)
    (hcur : fallbackRsiCurrent req = some [a, b, c]) :
    (latest.profitFactor < 3 / 2 →
      fallbackOptimize req prev = some
        { runId := req.runId, strategyName := req.strategyName
          optimizedParameters := [("rsi_limits",
            PyVal.list [PyVal.num ((max 5 (a - 5) : ℤ) : ℚ), PyVal.num ((b : ℤ) : ℚ),
              PyVal.num ((min 95 (c + 5) : ℤ) : ℚ)])]
          confidence := 2 / 5
          metadata := [("method", "fallback_deterministic")] }) ∧
    (¬ latest.profitFactor < 3 / 2 → latest.maxDrawdown > 10 →
      fallbackOptimize req prev = some
        { runId := req.runId, strategyName := req.strategyName
          optimizedParameters := [("rsi_limits",
            PyVal.list [PyVal.num ((min 30 (a + 5) : ℤ) : ℚ), PyVal.num ((b : ℤ) : ℚ),
              PyVal.num ((max 70 (c - 5) : ℤ) : ℚ)])]
          confidence := 2 / 5
          metadata := [("method", "fallback_deterministic")] }) := by
  constructor
  · intro hpf
    simp [fallbackOptimize, hlast, hspace, hcur, hpf]
  · intro hpf hdd
    simp [fallbackOptimize, hlast, hspace, hcur, hpf, hdd]

/-- C5 witness: the fallback at the concrete request (current [30, 50, 70],
profit factor 1.0). -/
theorem c5_fallback_amended_witness :
    fallbackOptimize c5Request c5Prev = some
      { runId := c5Request.runId, strategyName := c5Request.strategyName
        optimizedParameters := [("rsi_limits",
          PyVal.list [PyVal.num ((max 5 ((30 : ℤ) - 5) : ℤ) : ℚ), PyVal.num ((50 : ℤ) : ℚ),
            PyVal.num ((min 95 ((70 : ℤ) + 5) : ℤ) : ℚ)])]
        confidence := 2 / 5
        metadata := [("method", "fallback_deterministic")] } :=
  (c5_fallback_amended c5Request c5Prev { profitFactor := 1, maxDrawdown := 5 }
      30 50 70 rfl rfl rfl).1 (by norm_num)

/-- C6 (amended): any `rsi_limits` value accepted by the DEDICATED
`rsi_limits` validation branch of `_validate_parameters` is a list of exactly
three integers, each in [0, 100], in strictly ascending order; values
re-admitted by the generic parameter-space loop (or produced by the
deterministic fallback) carry no such guarantee. -/
theorem c6_rsi_branch_sound (v : PyVal) (ints : List ℤ)
    (h : rsiBranch v = some (some ints)) :
    ints.length = 3 ∧ (∀ i ∈ ints, 0 ≤ i ∧ i ≤ 100) ∧
    ∃ a b c, ints = [a, b, c] ∧ a < b ∧ b < c := by
  cases v with
  | num q => simp [rsiBranch] at h
  | str s => simp [rsiBranch] at h
  | nil => simp [rsiBranch] at h
  | list xs =>
      rw [show rsiBranch (PyVal.list xs) =
        (if xs.length = 3 then
          match xs.mapM pyInt with
          | none => none
          | some ints =>
              if ints.all (fun i => decide (0 ≤ i) && decide (i ≤ 100)) &&
                 (match ints with
                  | [a, b, c] => decide (a < b) && decide (b < c)
                  | _ => false) then
                some (some ints)
              else some none
        else some none) from rfl] at h
      by_cases hlen : xs.length = 3
      · rw [if_pos hlen] at h
        cases hmap : xs.mapM pyInt with
        | none => rw [hmap] at h; simp at h
        | some ints2 =>
            rw [hmap] at h
            split at h
            · rename_i heq
              simp at heq
            · rename_i ints3 heq
              obtain rfl : ints2 = ints3 := by simpa using heq
              split at h
              · rename_i hcond
                have hints : ints2 = ints := by simpa using h
                simp only [Bool.and_eq_true, List.all_eq_true, decide_eq_true_eq] at hcond
                obtain ⟨hall, hasc⟩ := hcond
                have hbounds : ∀ i ∈ ints2, 0 ≤ i ∧ i ≤ 100 := fun i hi => hall i hi
                subst hints
                cases ints2 with
                | nil => simp at hasc
                | cons a t1 =>
                    cases t1 with
                    | nil => simp at hasc
                    | cons b t2 =>
                        cases t2 with
                        | nil => simp at hasc
                        | cons c t3 =>
                            cases t3 with
                            | nil =>
                                simp only [Bool.and_eq_true, decide_eq_true_eq] at hasc
                                exact ⟨rfl, hbounds, a, b, c, rfl, hasc.1, hasc.2⟩
                            | cons d t4 => simp at hasc
              · simp at h
      · rw [if_neg hlen] at h
        simp at h

/-- C6 witness: the dedicated branch at the valid triple [20, 50, 80]. -/
theorem c6_rsi_branch_sound_witness :
    ([20, 50, 80] : List ℤ).length = 3 ∧
    (∀ i ∈ ([20, 50, 80] : List ℤ), 0 ≤ i ∧ i ≤ 100) ∧
    ∃ a b c, ([20, 50, 80] : List ℤ) = [a, b, c] ∧ a < b ∧ b < c :=
  c6_rsi_branch_sound (PyVal.list [PyVal.num 20, PyVal.num 50, PyVal.num 80])
    [20, 50, 80] rfl

/-- C2 (amended): for an evaluation that does not pass and has no critical
failure, the recommendation is "optimize" if and only if SOME failing KPI is
within 20% of its threshold (the Python loop breaks at the first such KPI),
and "reject" exactly otherwise — not "every failing metric" as the claim
states. -/
theorem c2_optimize_iff_some_close (metrics kpis : List (String × ℚ))
    (hpassed : evaluationPassed (kpiCompliance metrics kpis) = false)
    (hcrit : criticalFailures (kpiCompliance metrics kpis) metrics kpis = false) :
    ((evaluate metrics kpis).recommendation = "optimize" ↔
      ∃ kv ∈ kpiCompliance metrics kpis, kv.2 = false ∧
        within20OfThreshold metrics kpis kv.1) ∧
    ((evaluate metrics kpis).recommendation = "reject" ↔
      ¬ ∃ kv ∈ kpiCompliance metrics kpis, kv.2 = false ∧
        within20OfThreshold metrics kpis kv.1) := by
  have hrec : (evaluate metrics kpis).recommendation =
      if failingCloseToThreshold (kpiCompliance metrics kpis) metrics kpis then "optimize"
      else "reject" := by
    show generateRecommendation (evaluationPassed (kpiCompliance metrics kpis))
        (kpiCompliance metrics kpis) metrics kpis = _
    rw [generateRecommendation, hpassed, hcrit]
    simp
  have hiff : failingCloseToThreshold (kpiCompliance metrics kpis) metrics kpis = true ↔
      ∃ kv ∈ kpiCompliance metrics kpis, kv.2 = false ∧
        within20OfThreshold metrics kpis kv.1 := by
    rw [failingCloseToThreshold, List.any_eq_true]
    constructor
    · rintro ⟨kv, hmem, hkv⟩
      rw [Bool.and_eq_true] at hkv
      refine ⟨kv, hmem, by simpa using hkv.1, ?_⟩
      have h2 := hkv.2
      unfold within20OfThreshold
      by_cases hname : kv.1 = "max_drawdown"
      · rw [if_pos hname] at h2
        rw [if_pos hname]
        exact of_decide_eq_true h2
      · rw [if_neg hname] at h2
        rw [if_neg hname]
        exact of_decide_eq_true h2
    · rintro ⟨kv, hmem, hfalse, hw⟩
      refine ⟨kv, hmem, ?_⟩
      rw [Bool.and_eq_true]
      refine ⟨by simp [hfalse], ?_⟩
      unfold within20OfThreshold at hw
      by_cases hname : kv.1 = "max_drawdown"
      · rw [if_pos hname] at hw
        rw [if_pos hname]
        exact decide_eq_true hw
      · rw [if_neg hname] at hw
        rw [if_neg hname]
        exact decide_eq_true hw
  cases hclose : failingCloseToThreshold (kpiCompliance metrics kpis) metrics kpis with
  | true =>
      rw [hclose] at hrec
      simp only [if_true] at hrec
      refine ⟨iff_of_true hrec (hiff.mp hclose), iff_of_false ?_ ?_⟩
      · rw [hrec]
        simp
      · simpa using hiff.mp hclose
  | false =>
      rw [hclose] at hrec
      simp only [Bool.false_eq_true, if_false] at hrec
      refine ⟨iff_of_false ?_ ?_, iff_of_true hrec ?_⟩
      · rw [hrec]
        simp
      · intro hex
        have h4 := hiff.mpr hex
        rw [hclose] at h4
        exact Bool.false_ne_true h4
      · intro hex
        have h4 := hiff.mpr hex
        rw [hclose] at h4
        exact Bool.false_ne_true h4

/-- C2 witness: the amended rule at the concrete failing-but-close metrics. -/
theorem c2_optimize_iff_some_close_witness :
    (evaluate c2Metrics c2Kpis).recommendation = "optimize" := by
  have hpassed : evaluationPassed (kpiCompliance c2Metrics c2Kpis) = false := by
    simp [c2Metrics, c2Kpis, kpiCompliance, evaluationPassed, alookup] <;> norm_num
  have hcrit : criticalFailures (kpiCompliance c2Metrics c2Kpis) c2Metrics c2Kpis = false := by
    simp [c2Metrics, c2Kpis, kpiCompliance, criticalFailures, alookup] <;> norm_num
  refine (c2_optimize_iff_some_close c2Metrics c2Kpis hpassed hcrit).1.mpr
    ⟨("sharpe_ratio", false), ?_, rfl, ?_⟩
  · simp [c2Metrics, c2Kpis, kpiCompliance, alookup] <;> norm_num
  · simp [within20OfThreshold, c2Metrics, c2Kpis, alookup] <;> norm_num

/-- C4 (amended): when the exchange processes a base-timeframe candle, it
liquidates exactly when balance plus worst-case unrealized P&L is STRICTLY
negative (not ≤ 0): it then zeroes the balance, resets both positions to flat
and dispatches a position event for each before matching orders; when the sum
is ≥ 0 (including exactly 0) no liquidation happens, and with no resting
orders the candle leaves the state untouched and emits nothing. -/
theorem c4_liquidation_amended (st : ExchangeState) (candle : CandleData) :
    (realBalanceAt st candle < 0 →
      ∃ rest, (onCandleUpdate st candle).2 =
        ExchangeEvent.positionEvent (flatPosition candle.symbol PositionSide.long) ::
        ExchangeEvent.positionEvent (flatPosition candle.symbol PositionSide.short) :: rest) ∧
    (symbolOrders st candle.symbol = [] →
      (realBalanceAt st candle < 0 →
        onCandleUpdate st candle =
          (liquidatedExchangeState st candle,
           [ExchangeEvent.positionEvent (flatPosition candle.symbol PositionSide.long),
            ExchangeEvent.positionEvent (flatPosition candle.symbol PositionSide.short)])) ∧
      (0 ≤ realBalanceAt st candle → onCandleUpdate st candle = (st, []))) := by
  have hliqPos : realBalanceAt st candle < 0 →
      liquidationStep st candle =
        (liquidatedExchangeState st candle,
         [ExchangeEvent.positionEvent (flatPosition candle.symbol PositionSide.long),
          ExchangeEvent.positionEvent (flatPosition candle.symbol PositionSide.short)]) := by
    intro hreal
    unfold liquidationStep
    rw [if_pos hreal]
    rfl
  have hliqNeg : 0 ≤ realBalanceAt st candle → liquidationStep st candle = (st, []) := by
    intro hreal
    unfold liquidationStep
    rw [if_neg (not_lt.mpr hreal)]
  refine ⟨?_, ?_⟩
  · intro hreal
    refine ⟨(matchOrdersLoop candle candle.symbol
      ((symbolOrders st candle.symbol).length) 0 (liquidatedExchangeState st candle)).2, ?_⟩
    simp only [onCandleUpdate, hliqPos hreal]
    simp
  · intro horders
    refine ⟨?_, ?_⟩
    · intro hreal
      simp only [onCandleUpdate, hliqPos hreal, horders, List.length_nil, matchOrdersLoop]
      simp
    · intro hreal
      simp only [onCandleUpdate, hliqNeg hreal, horders, List.length_nil, matchOrdersLoop]
      simp

/-- C4 witness: the liquidation boundary at the concrete state: a candle low
of 89 (sum −1) liquidates with the two position events; a candle low of 90
(sum exactly 0) leaves the state untouched. -/
theorem c4_liquidation_amended_witness :
    onCandleUpdate c4State c4CrashCandle =
      (liquidatedExchangeState c4State c4CrashCandle,
       [ExchangeEvent.positionEvent (flatPosition "btcusdt" PositionSide.long),
        ExchangeEvent.positionEvent (flatPosition "btcusdt" PositionSide.short)]) ∧
    onCandleUpdate c4State c4BoundaryCandle = (c4State, []) := by
  have hneg : realBalanceAt c4State c4CrashCandle < 0 := by
    simp [realBalanceAt, getPosition, posLookup, c4State, c4CrashCandle,
      pyLower_btcusdt_lower, flatPosition] <;> norm_num
  have hzero : (0 : ℚ) ≤ realBalanceAt c4State c4BoundaryCandle := by
    simp [realBalanceAt, getPosition, posLookup, c4State, c4BoundaryCandle,
      pyLower_btcusdt_lower, flatPosition] <;> norm_num
  exact ⟨((c4_liquidation_amended c4State c4CrashCandle).2 rfl).1 hneg,
         ((c4_liquidation_amended c4State c4BoundaryCandle).2 rfl).2 hzero⟩

/-- C3: the long round trip — limit buy 0.1 at 50 000 under maker fee 0.0002
(commission 1), then limit sell 0.1 at 51 000 (commission 1.02); the closing
trade realizes (51 000 − 50 000) × 0.1 − 1.02 = 98.98 exactly, marks
`closes_position_completely`, the balance ends at initial − 1 + 98.98 =
initial + 97.98, and the long position is reset to flat (amount, entry price
and break even all 0).  `b` is the arbitrary initial balance. -/
theorem c3_closing_trade_arithmetic (b : ℚ) :
    (c3FinalState b).trades = [c3OpenTrade, c3CloseTrade] ∧
    c3OpenTrade.commission = 1 ∧ c3OpenTrade.realizedPnl = 0 ∧
    c3CloseTrade.commission = 102 / 100 ∧
    c3CloseTrade.realizedPnl = 9898 / 100 ∧
    c3CloseTrade.closesPositionCompletely = true ∧
    (c3FinalState b).balance = b + 9798 / 100 ∧
    getPosition (c3FinalState b) "btcusdt" PositionSide.long =
      flatPosition "btcusdt" PositionSide.long := by
  have hmid : c3MidState b =
      { balance := b - 1, leverages := [("btcusdt", 100)]
        positions := [(("btcusdt", PositionSide.long),
          { symbol := "btcusdt", side := PositionSide.long, amount := 1 / 10
            entryPrice := 50000, breakEven := 50020, commission := 2
            trades := [c3OpenTrade] })]
        orders := [], trades := [c3OpenTrade], makerFee := 2 / 10000
        takerFee := 5 / 10000, maxNotional := 50000, internalListeners := [] } := by
    simp only [c3MidState, completeOrder, c3InitialState, c3BuyOrder, c3Candle,
      getPosition, posLookup, setPosition, setPosition.go, addTrade, deleteOrder,
      deleteOrder.go, flatPosition, positionAddTrade, sortTradesByTimestamp,
      insertByTimestamp, pyLower_btcusdt_lower, c3OpenTrade]
    simp [pyLower_btcusdt_lower]
    repeat' apply And.intro
    all_goals try simp only [abs_mul, abs_div, abs_inv, abs_one, Nat.abs_ofNat]
    all_goals first | rfl | ring | norm_num
  have hfin : c3FinalState b =
      { balance := b - 1 + (100 - 51 / 50), leverages := [("btcusdt", 100)]
        positions := [(("btcusdt", PositionSide.long),
          flatPosition "btcusdt" PositionSide.long)]
        orders := [], trades := [c3OpenTrade, c3CloseTrade], makerFee := 2 / 10000
        takerFee := 5 / 10000, maxNotional := 50000, internalListeners := [] } := by
    rw [c3FinalState, hmid]
    simp only [completeOrder, c3SellOrder, c3Candle, getPosition, posLookup,
      setPosition, setPosition.go, addTrade, deleteOrder, deleteOrder.go,
      flatPosition, positionAddTrade, sortTradesByTimestamp, insertByTimestamp,
      pyLower_btcusdt_lower, c3CloseTrade, c3OpenTrade]
    simp [pyLower_btcusdt_lower]
    repeat' apply And.intro
    all_goals try simp only [abs_mul, abs_div, abs_inv, abs_one, Nat.abs_ofNat]
    all_goals first | rfl | ring | norm_num
  refine ⟨by rw [hfin], by norm_num [c3OpenTrade], by norm_num [c3OpenTrade],
    by norm_num [c3CloseTrade], by norm_num [c3CloseTrade],
    by norm_num [c3CloseTrade], ?_, ?_⟩
  · rw [hfin]
    show b - 1 + (100 - 51 / 50) = b + 9798 / 100
    ring
  · rw [hfin]
    simp [getPosition, posLookup, pyLower_btcusdt_lower]

theorem foldlMin_mem (l : List CandleRow) (a : CandleRow) :
    l.foldl (fun best x => if x.timestamp < best.timestamp then x else best) a = a ∨
    l.foldl (fun best x => if x.timestamp < best.timestamp then x else best) a ∈ l := by
  induction l generalizing a with
  | nil => left; rfl
  | cons x xs ih =>
      simp only [List.foldl_cons]
      rcases ih (if x.timestamp < a.timestamp then x else a) with h | h
      · rw [h]
        by_cases hx : x.timestamp < a.timestamp
        · right
          rw [if_pos hx]
          exact List.mem_cons_self _ _
        · left
          rw [if_neg hx]
      · right
        exact List.mem_cons_of_mem _ h

theorem foldlMin_le (l : List CandleRow) (a : CandleRow) :
    (l.foldl (fun best x => if x.timestamp < best.timestamp then x else best) a).timestamp ≤
      a.timestamp ∧
    ∀ x ∈ l,
      (l.foldl (fun best x => if x.timestamp < best.timestamp then x else best) a).timestamp ≤
        x.timestamp := by
  induction l generalizing a with
  | nil => exact ⟨le_refl _, by simp⟩
  | cons x xs ih =>
      simp only [List.foldl_cons]
      obtain ⟨h1, h2⟩ := ih (if x.timestamp < a.timestamp then x else a)
      have hba : (if x.timestamp < a.timestamp then x else a).timestamp ≤ a.timestamp := by
        by_cases hx : x.timestamp < a.timestamp
        · rw [if_pos hx]
          exact le_of_lt hx
        · rw [if_neg hx]
      have hbx : (if x.timestamp < a.timestamp then x else a).timestamp ≤ x.timestamp := by
        by_cases hx : x.timestamp < a.timestamp
        · rw [if_pos hx]
        · rw [if_neg hx]
          exact le_of_not_lt hx
      refine ⟨le_trans h1 hba, ?_⟩
      intro y hy
      rcases List.mem_cons.mp hy with rfl | hy2
      · exact le_trans h1 hbx
      · exact h2 y hy2

theorem minByTimestamp_spec (l : List CandleRow) (r : CandleRow)
    (h : minByTimestamp l = some r) :
    r ∈ l ∧ ∀ x ∈ l, r.timestamp ≤ x.timestamp := by
  cases l with
  | nil => simp [minByTimestamp] at h
  | cons a rest =>
      have hr : rest.foldl (fun best x => if x.timestamp < best.timestamp then x else best) a
          = r := by simpa [minByTimestamp] using h
      constructor
      · rcases foldlMin_mem rest a with he | he
        · rw [← hr, he]
          exact List.mem_cons_self _ _
        · rw [← hr]
          exact List.mem_cons_of_mem _ he
      · intro x hx
        rcases List.mem_cons.mp hx with h7 | hx2
        · rw [h7, ← hr]
          exact (foldlMin_le rest a).1
        · rw [← hr]
          exact (foldlMin_le rest a).2 x hx2

theorem alookup_setTable_self (s : List (String × List CandleRow)) (k : String)
    (t : List CandleRow) : alookup (setTable s k t) k = some t := by
  induction s with
  | nil => simp [setTable, alookup]
  | cons kv rest ih =>
      by_cases hk : kv.1 = k
      · rw [setTable, if_pos hk]
        simp [alookup]
      · rw [setTable, if_neg hk]
        rw [alookup, if_neg hk]
        exact ih

/-- C8 (amended): `get_next_candle` returns the stored row with the least
timestamp STRICTLY greater than the queried one; hence an inserted candle
comes back when queried with any earlier timestamp ts such that no other
stored row of that timeframe lies in the interval (ts, candle.timestamp). -/
theorem c8_roundtrip_amended (store : List (String × List CandleRow))
    (c : StoredCandle) (ts : ℤ)
    (hts : ts < c.timestamp)
    (hgap : ∀ r ∈ (alookup (addCandles store [c]) (pyLower c.symbol)).getD [],
        r.timeframe = c.timeframe → ts < r.timestamp → c.timestamp ≤ r.timestamp) :
    getNextCandle (addCandles store [c]) c.symbol ts c.timeframe = some c := by
  have htable : alookup (addCandles store [c]) (pyLower c.symbol) =
      some (upsertRow ((alookup store (pyLower c.symbol)).getD []) (rowOfCandle c)) := by
    rw [show addCandles store [c] = setTable store (pyLower c.symbol)
        (upsertRow ((alookup store (pyLower c.symbol)).getD []) (rowOfCandle c)) from rfl]
    exact alookup_setTable_self _ _ _
  set table2 := upsertRow ((alookup store (pyLower c.symbol)).getD []) (rowOfCandle c)
    with htable2
  set rows := table2.filter (fun r => decide (ts < r.timestamp) &&
    decide (r.timeframe = c.timeframe)) with hrows
  have hgnc : getNextCandle (addCandles store [c]) c.symbol ts c.timeframe =
      (match minByTimestamp rows with
       | none => none
       | some r =>
           some { symbol := c.symbol, timeframe := r.timeframe, timestamp := r.timestamp
                  openPrice := r.openPrice, highPrice := r.highPrice, lowPrice := r.lowPrice
                  closePrice := r.closePrice, volume := r.volume }) := by
    rw [getNextCandle, htable]
  have hrowc : rowOfCandle c ∈ rows := by
    rw [hrows]
    rw [List.mem_filter]
    constructor
    · rw [htable2, upsertRow]
      exact List.mem_append_right _ (List.mem_singleton.mpr rfl)
    · simp [rowOfCandle, hts]
  have hgap2 : ∀ r ∈ table2, r.timeframe = c.timeframe → ts < r.timestamp →
      c.timestamp ≤ r.timestamp := by
    intro r hmem
    apply hgap
    rw [htable]
    exact hmem
  cases hminr : minByTimestamp rows with
  | none =>
      cases hrowsl : rows with
      | nil => rw [hrowsl] at hrowc; simp at hrowc
      | cons a rest => rw [hrowsl] at hminr; simp [minByTimestamp] at hminr
  | some r =>
      obtain ⟨hrmem, hrle⟩ := minByTimestamp_spec rows r hminr
      have hrfilter := List.mem_filter.mp (hrows ▸ hrmem)
      obtain ⟨hrtable, hrcond⟩ := hrfilter
      rw [Bool.and_eq_true, decide_eq_true_eq, decide_eq_true_eq] at hrcond
      obtain ⟨hrts, hrtf⟩ := hrcond
      have hlower : c.timestamp ≤ r.timestamp := hgap2 r hrtable hrtf hrts
      have hupper : r.timestamp ≤ c.timestamp := by
        have h5 := hrle (rowOfCandle c) hrowc
        simpa [rowOfCandle] using h5
      have hts_eq : r.timestamp = c.timestamp := le_antisymm hupper hlower
      have hreq : r = rowOfCandle c := by
        rw [htable2, upsertRow] at hrtable
        rcases List.mem_append.mp hrtable with hold | hnew
        · exfalso
          have h6 := (List.mem_filter.mp hold).2
          simp [rowOfCandle, hts_eq, hrtf] at h6
        · simpa using hnew
      rw [hgnc, hminr, hreq]
      rfl

/-- C8 witness: insertion into the empty store queried one millisecond
earlier returns the same candle. -/
theorem c8_roundtrip_amended_witness :
    getNextCandle (addCandles [] [c8Candle]) "BTCUSDT" 1744023499999 "1m" =
      some c8Candle := by
  have h := c8_roundtrip_amended [] c8Candle 1744023499999 (by decide) ?_
  · simpa [c8Candle] using h
  · intro r hr htf hts
    simp only [addCandles, List.foldl_cons, List.foldl_nil] at hr
    rw [alookup_setTable_self] at hr
    simp only [Option.getD_some] at hr
    have : r = rowOfCandle c8Candle := by
      simpa [upsertRow, alookup] using hr
    rw [this]
    norm_num [rowOfCandle, c8Candle]

end TradingAssistant
